import Mathlib

/-!
Verification development for the fencemaster admission controller.

The definitions below are a shallow embedding of the Go source:
`pkg/webhook/handler.go` (the mutation engine and the JSON-Pointer
escape) and `pkg/rancher/client.go` (the identifier resolver with its
TTL cache and retry loop).  Machine time is modelled as an integer
timestamp, remote calls as oracle functions indexed by attempt number,
and Go maps as association lists with key-replacing insertion.
-/

namespace Fencemaster

/-! Status labels from `pkg/metrics/metrics.go`. -/

def StatusAllowed : String := "allowed"

def StatusDenied : String := "denied"

def StatusError : String := "error"

def StatusSkipped : String := "skipped"

def StatusMutated : String := "mutated"

def StatusDryRun : String := "dry_run"

/-! JSON-Pointer escaping, from `escapeJSONPointer` in
`pkg/webhook/handler.go`: the loop maps each rune, sending a tilde to
the two characters tilde-zero and a slash to tilde-one. -/

def escapeChar (c : Char) : List Char :=
  if c = '~' then ['~', '0'] else if c = '/' then ['~', '1'] else [c]

def escapeChars : List Char → List Char
  | [] => []
  | c :: rest => escapeChar c ++ escapeChars rest

def escapeJSONPointer (s : String) : String :=
  String.mk (escapeChars s.data)

/-- Modelled from the spec: the repository defines only the escape
direction; the spec appeals to "the corresponding unescape" of RFC 6901,
which rewrites tilde-zero back to a tilde and tilde-one back to a slash,
scanning left to right. -/
def unescapeChars : List Char → List Char
  | [] => []
  | [c] => [c]
  | c :: d :: rest =>
    if c = '~' then
      if d = '0' then '~' :: unescapeChars rest
      else if d = '1' then '/' :: unescapeChars rest
      else c :: unescapeChars (d :: rest)
    else c :: unescapeChars (d :: rest)

/-- Modelled from the spec: string-level wrapper of `unescapeChars`. -/
def unescapeJSONPointer (s : String) : String :=
  String.mk (unescapeChars s.data)

namespace Rancher

/-! Identifier resolver, from `pkg/rancher/client.go`.  Timestamps are
integers (milliseconds); `time.Now().Before(t)` becomes `now < t` and
`time.Now().After(t)` becomes `t < now`.  The dynamic-client calls are
oracles indexed by the attempt number, returning either a structured
result or a classifiable error. -/

def maxRetries : Nat := 3

def initialBackoff : Int := 100

def maxBackoff : Int := 2000

structure CacheEntry where
  value : String
  expiresAt : Int
deriving Repr, DecidableEq

/-- a Go map modelled as an association list with key-replacing
insertion. -/
abbrev Cache := List (String × CacheEntry)

def cacheFind : Cache → String → Option CacheEntry
  | [], _ => none
  | (k, e) :: rest, key => if k = key then some e else cacheFind rest key

/-- the read-side check of both caches: an entry answers a read iff it
exists and `now` is strictly before its expiry. -/
def cacheLookup (c : Cache) (key : String) (now : Int) : Option String :=
  match cacheFind c key with
  | some e => if now < e.expiresAt then some e.value else none
  | none => none

def cacheInsert : Cache → String → CacheEntry → Cache
  | [], key, e => [(key, e)]
  | (k, e0) :: rest, key, e =>
    if k = key then (key, e) :: rest else (k, e0) :: cacheInsert rest key e

/-- `evictExpiredEntries`: the sweep deletes exactly the entries whose
expiry lies strictly in the past. -/
def evictExpired (c : Cache) (now : Int) : Cache :=
  c.filter (fun kv => !decide (kv.2.expiresAt < now))

/-- classification of the errors the backend can return, mirroring the
`k8s.io/apimachinery` error predicates used by `isRetryableError`. -/
inductive K8sErr where
  | serverTimeout
  | timeout
  | tooManyRequests
  | serviceUnavailable
  | internalError
  | notFound
  | badRequest
  | forbidden
  | unauthorized
  | other
deriving Repr, DecidableEq

def isRetryableError : K8sErr → Bool
  | .serverTimeout => true
  | .timeout => true
  | .tooManyRequests => true
  | .serviceUnavailable => true
  | .internalError => true
  | _ => false

structure RetryOut (α : Type) where
  result : Except K8sErr α
  /-- number of remote attempts issued. -/
  attempts : Nat
  /-- backoff delays waited between consecutive attempts, in order. -/
  waits : List Int
deriving Repr

/-- the retry loop shared by `GetClusterID` and `GetProjectID`:
`left` counts the retries still permitted (`maxRetries - attempt`), so
the loop body runs for attempts `0 .. maxRetries`; a terminal error or
an exhausted budget returns the error, otherwise the loop waits
`backoff` and doubles it, capped at `maxBackoff`. -/
def retryAux {α : Type} (call : Nat → Except K8sErr α) :
    Nat → Nat → Int → List Int → RetryOut α
  | left, attempt, backoff, waits =>
    match call attempt, left with
    | .ok a, _ => ⟨.ok a, attempt + 1, waits.reverse⟩
    | .error e, 0 => ⟨.error e, attempt + 1, waits.reverse⟩
    | .error e, l + 1 =>
      if isRetryableError e then
        retryAux call l (attempt + 1) (min (backoff * 2) maxBackoff)
          (backoff :: waits)
      else ⟨.error e, attempt + 1, waits.reverse⟩

/-- the sequence of backoff delays the loop waits through when every
attempt fails with a retryable error: the delay starts at `b` and each
subsequent delay is the double of the previous one, capped at
`maxBackoff`. -/
def backoffWaits : Nat → Int → List Int
  | 0, _ => []
  | l + 1, b => b :: backoffWaits l (min (b * 2) maxBackoff)

/-- each delay after the first is the double of its predecessor capped
at `maxBackoff`. -/
def backoffChain : List Int → Prop
  | [] => True
  | [_] => True
  | a :: b :: rest => b = min (a * 2) maxBackoff ∧ backoffChain (b :: rest)

/-- result of `unstructured.NestedString`: the field is a string, is
absent, or is present with a non-string type (an extraction error). -/
inductive NestedStr where
  | found : String → NestedStr
  | missing
  | wrongType
deriving Repr, DecidableEq

/-- the cluster object returned by the get-by-name call, reduced to the
single field `GetClusterID` reads: `status.clusterName`. -/
structure ClusterObj where
  statusClusterName : NestedStr
deriving Repr, DecidableEq

/-- a project list item, reduced to the fields `GetProjectID` reads:
`metadata.name` and `spec.displayName`. -/
structure ProjectObj where
  name : String
  specDisplayName : NestedStr
deriving Repr, DecidableEq

/-- the resolver's error values. -/
inductive RErr where
  | apiError : K8sErr → RErr
  | nestedFieldError
  | clusterNameMissing : String → RErr
  | projectNotFound : String → String → RErr
deriving Repr, DecidableEq

structure ResolveOut where
  result : Except RErr String
  cache : Cache
  attempts : Nat
  waits : List Int
deriving Repr

/-- the scan of `GetProjectID` over the listed items: the first item in
list order whose `spec.displayName` extracts and equals the requested
name wins; items whose field is missing or of the wrong type are
skipped. -/
def findProject : List ProjectObj → String → Option String
  | [], _ => none
  | p :: rest, displayName =>
    match p.specDisplayName with
    | .found d =>
      if d = displayName then some p.name else findProject rest displayName
    | _ => findProject rest displayName

/-- `GetClusterID`: read-through cache over a retried get-by-name call,
then extraction of `status.clusterName`; only a successful extraction
writes the cache, with expiry `now + ttl`. -/
def getClusterID (ttl now : Int) (remote : Nat → Except K8sErr ClusterObj)
    (cache : Cache) (clusterName : String) : ResolveOut :=
  match cacheLookup cache clusterName now with
  | some v => ⟨.ok v, cache, 0, []⟩
  | none =>
    let r := retryAux remote maxRetries 0 initialBackoff []
    match r.result with
    | .error e => ⟨.error (.apiError e), cache, r.attempts, r.waits⟩
    | .ok obj =>
      match obj.statusClusterName with
      | .wrongType => ⟨.error .nestedFieldError, cache, r.attempts, r.waits⟩
      | .missing =>
        ⟨.error (.clusterNameMissing clusterName), cache, r.attempts, r.waits⟩
      | .found clusterID =>
        ⟨.ok clusterID,
         cacheInsert cache clusterName ⟨clusterID, now + ttl⟩,
         r.attempts, r.waits⟩

/-- `GetProjectID`: read-through cache keyed by
`clusterID ++ ":" ++ projectDisplayName` over a retried list call, then
the first-match scan; only a successful match writes the cache. -/
def getProjectID (ttl now : Int)
    (remote : Nat → Except K8sErr (List ProjectObj))
    (cache : Cache) (clusterID projectDisplayName : String) : ResolveOut :=
  let cacheKey := clusterID ++ ":" ++ projectDisplayName
  match cacheLookup cache cacheKey now with
  | some v => ⟨.ok v, cache, 0, []⟩
  | none =>
    let r := retryAux remote maxRetries 0 initialBackoff []
    match r.result with
    | .error e => ⟨.error (.apiError e), cache, r.attempts, r.waits⟩
    | .ok items =>
      match findProject items projectDisplayName with
      | some projectID =>
        ⟨.ok projectID,
         cacheInsert cache cacheKey ⟨projectID, now + ttl⟩,
         r.attempts, r.waits⟩
      | none =>
        ⟨.error (.projectNotFound projectDisplayName clusterID),
         cache, r.attempts, r.waits⟩

end Rancher

theorem unescapeChars_cons_ne (c : Char) (l : List Char) (h : c ≠ '~') :
    unescapeChars (c :: l) = c :: unescapeChars l := by
  cases l with
  | nil => rfl
  | cons d rest => simp [unescapeChars, h]

theorem unescapeChars_escapeChars (l : List Char) :
    unescapeChars (escapeChars l) = l := by
  induction l with
  | nil => rfl
  | cons c rest ih =>
    by_cases h1 : c = '~'
    · subst h1
      simp [escapeChars, escapeChar, unescapeChars, ih]
    · by_cases h2 : c = '/'
      · subst h2
        simp [escapeChars, escapeChar, unescapeChars, ih]
      · simp only [escapeChars, escapeChar, h1, h2, if_false, List.singleton_append]
        rw [unescapeChars_cons_ne c _ h1, ih]

theorem unescape_escape_string (s : String) :
    unescapeJSONPointer (escapeJSONPointer s) = s := by
  cases s with
  | mk data =>
    show String.mk (unescapeChars (escapeChars data)) = String.mk data
    rw [unescapeChars_escapeChars]

/-! Webhook data model, from `pkg/webhook/handler.go`.  A parsed
Namespace carries a label map and a possibly absent (nil) map of
object metadata key/value pairs; both are modelled as association
lists.  A raw payload that fails `json.Unmarshal` is modelled as
`none`. -/

structure NamespaceObj where
  name : String
  labels : List (String × String)
  annotations : Option (List (String × String))
deriving Repr, DecidableEq

inductive Operation where
  | create
  | update
  | delete
  | connect
deriving Repr, DecidableEq

structure AdmissionRequest where
  kind : String
  operation : Operation
  /-- parse result of `req.Object.Raw`; `none` means the payload does
  not unmarshal as a Namespace. -/
  objectRaw : Option NamespaceObj
  /-- `req.OldObject.Raw`: outer `none` models a nil raw payload, inner
  `none` a payload that is present but fails to parse. -/
  oldObjectRaw : Option (Option NamespaceObj)
deriving Repr, DecidableEq

inductive PatchValue where
  | str : String → PatchValue
  | emptyObject : PatchValue
deriving Repr, DecidableEq

structure PatchOp where
  op : String
  path : String
  value : PatchValue
deriving Repr, DecidableEq

structure AdmissionResponse where
  allowed : Bool
  message : Option String := none
  patch : Option (List PatchOp) := none
  patchType : Option String := none
deriving Repr, DecidableEq

def projectLabel : String := "project"

def projectAnnotationKey : String := "field.cattle.io/projectId"

/-- first-match lookup in an association list, the model of a Go map
read with the ok flag. -/
def lookupStr : List (String × String) → String → Option String
  | [], _ => none
  | (k, v) :: rest, key => if k = key then some v else lookupStr rest key

/-- Go map read without the ok flag on a possibly nil map: a nil map or
a missing key yields the empty string. -/
def annotGet (ns : NamespaceObj) (key : String) : String :=
  match ns.annotations with
  | none => ""
  | some m => (lookupStr m key).getD ""

/-- the UPDATE short-circuit condition of `mutate`: the old object is
present and parses, its project-label value equals the new one, and the
new object's target key already carries a non-empty value. -/
def updateShortCircuit (req : AdmissionRequest) (ns : NamespaceObj)
    (projectName : String) : Bool :=
  decide (req.operation = Operation.update) &&
    match req.oldObjectRaw with
    | some (some oldNs) =>
      decide ((lookupStr oldNs.labels projectLabel).getD "" = projectName) &&
        decide (annotGet ns projectAnnotationKey ≠ "")
    | _ => false

/-- the mutation engine `mutate` of `pkg/webhook/handler.go`, with the
two resolver operations of the `RancherClient` interface passed as
oracles returning either an identifier or an error message. -/
def mutate (strictMode dryRun : Bool)
    (getClusterID : String → Except String String)
    (getProjectID : String → String → Except String String)
    (req : AdmissionRequest) (clusterName : String) :
    AdmissionResponse × String :=
  if req.kind ≠ "Namespace" then ({ allowed := true }, StatusSkipped)
  else
    match req.objectRaw with
    | none =>
      ({ allowed := false, message := some "failed to unmarshal namespace" },
       StatusError)
    | some ns =>
      match lookupStr ns.labels projectLabel with
      | none => ({ allowed := true }, StatusSkipped)
      | some projectName =>
        if updateShortCircuit req ns projectName then
          ({ allowed := true }, StatusSkipped)
        else
          match getClusterID clusterName with
          | .error e =>
            if strictMode then
              ({ allowed := false,
                 message := some ("failed to get cluster ID: " ++ e) },
               StatusDenied)
            else ({ allowed := true }, StatusAllowed)
          | .ok clusterID =>
            match getProjectID clusterID projectName with
            | .error e =>
              if strictMode then
                ({ allowed := false,
                   message := some ("failed to get project ID for \x27" ++
                     projectName ++ "\x27: " ++ e) },
                 StatusDenied)
              else ({ allowed := true }, StatusAllowed)
            | .ok projectID =>
              let desired := clusterID ++ ":" ++ projectID
              if ns.annotations.isSome &&
                  decide (annotGet ns projectAnnotationKey = desired) then
                ({ allowed := true }, StatusSkipped)
              else if dryRun then ({ allowed := true }, StatusDryRun)
              else
                let keyPath :=
                  "/metadata/annotations/" ++ escapeJSONPointer projectAnnotationKey
                let patch : List PatchOp :=
                  match ns.annotations with
                  | some _ => [⟨"add", keyPath, .str desired⟩]
                  | none =>
                    [⟨"add", "/metadata/annotations", .emptyObject⟩,
                     ⟨"add", keyPath, .str desired⟩]
                ({ allowed := true, patch := some patch,
                   patchType := some "JSONPatch" }, StatusMutated)

/-- Claim C9: the JSON-Pointer escape maps a tilde to tilde-zero and a
slash to tilde-one and leaves every other character unchanged; the two
concrete examples from the spec hold; and unescape after escape recovers
every string exactly, so the escape is injective. -/
theorem c9_escape_roundtrip :
    (∀ s : String, unescapeJSONPointer (escapeJSONPointer s) = s) ∧
    escapeJSONPointer "field.cattle.io/projectId" = "field.cattle.io~1projectId" ∧
    escapeJSONPointer "a~b/c" = "a~0b~1c" ∧
    (∀ c : Char, escapeJSONPointer (String.mk [c]) =
      if c = '~' then "~0" else if c = '/' then "~1" else String.mk [c]) ∧
    Function.Injective escapeJSONPointer := by
  refine ⟨unescape_escape_string, by decide, by decide, ?_, ?_⟩
  · intro c
    by_cases h1 : c = '~'
    · subst h1; decide
    · by_cases h2 : c = '/'
      · subst h2; decide
      · simp [escapeJSONPointer, escapeChars, escapeChar, h1, h2]
  · exact Function.LeftInverse.injective unescape_escape_string

/-- Claim C1: when a namespace object reaches patch emission (the run
ends with status `mutated`), an absent annotation map yields exactly the
two operations adding the empty annotations object and then the escaped
target key, while a present map yields exactly the single add at the
escaped key path. -/
theorem c1_patch_shape (strict dry : Bool)
    (gc : String → Except String String)
    (gp : String → String → Except String String)
    (req : AdmissionRequest) (clusterName : String)
    (ns : NamespaceObj) (projectName clusterID projectID : String)
    (hobj : req.objectRaw = some ns)
    (hlabel : lookupStr ns.labels projectLabel = some projectName)
    (hc : gc clusterName = .ok clusterID)
    (hp : gp clusterID projectName = .ok projectID)
    (hm : (mutate strict dry gc gp req clusterName).2 = StatusMutated) :
    (mutate strict dry gc gp req clusterName).1.patch =
      some (match ns.annotations with
        | some _ =>
          [⟨"add", "/metadata/annotations/" ++ escapeJSONPointer projectAnnotationKey,
            PatchValue.str (clusterID ++ ":" ++ projectID)⟩]
        | none =>
          [⟨"add", "/metadata/annotations", PatchValue.emptyObject⟩,
           ⟨"add", "/metadata/annotations/" ++ escapeJSONPointer projectAnnotationKey,
            PatchValue.str (clusterID ++ ":" ++ projectID)⟩]) := by
  revert hm
  simp only [mutate, hobj, hlabel, hc, hp]
  split
  · intro hm; simp [StatusSkipped, StatusMutated] at hm
  · split
    · intro hm; simp [StatusSkipped, StatusMutated] at hm
    · split
      · intro hm; simp [StatusSkipped, StatusMutated] at hm
      · split
        · intro hm; simp [StatusDryRun, StatusMutated] at hm
        · intro _
          cases hA : ns.annotations <;> simp [hA]

theorem c1_patch_shape_witness :
    (mutate false false (fun _ => .ok "c-m-abc123") (fun _ _ => .ok "p-xyz789")
        ⟨"Namespace", .create, some ⟨"demo", [("project", "platform")], none⟩, none⟩
        "prod").1.patch =
      some [⟨"add", "/metadata/annotations", PatchValue.emptyObject⟩,
            ⟨"add", "/metadata/annotations/field.cattle.io~1projectId",
             PatchValue.str "c-m-abc123:p-xyz789"⟩] := by
  have h := c1_patch_shape false false
    (fun _ => .ok "c-m-abc123") (fun _ _ => .ok "p-xyz789")
    ⟨"Namespace", .create, some ⟨"demo", [("project", "platform")], none⟩, none⟩
    "prod" ⟨"demo", [("project", "platform")], none⟩
    "platform" "c-m-abc123" "p-xyz789" rfl (by decide) rfl rfl (by decide)
  exact h.trans (by decide)

/-- Claim C2: on identical requests, a terminal cluster-resolution
failure produces a denial naming the failure under strict mode but an
allowed decision with no patch (status `allowed`) under permissive
mode; independently, the same divergence holds for a
project-resolution failure. -/
theorem c2_strict_permissive (dry : Bool)
    (gc1 gc2 : String → Except String String)
    (gp1 gp2 : String → String → Except String String)
    (req : AdmissionRequest) (clusterName : String)
    (ns : NamespaceObj) (projectName clusterID e1 e2 : String)
    (hkind : req.kind = "Namespace")
    (hobj : req.objectRaw = some ns)
    (hlabel : lookupStr ns.labels projectLabel = some projectName)
    (hskip : updateShortCircuit req ns projectName = false)
    (hc1 : gc1 clusterName = .error e1)
    (hc2 : gc2 clusterName = .ok clusterID)
    (hp2 : gp2 clusterID projectName = .error e2) :
    (mutate true dry gc1 gp1 req clusterName =
       ({ allowed := false,
          message := some ("failed to get cluster ID: " ++ e1) }, StatusDenied)) ∧
    (mutate false dry gc1 gp1 req clusterName =
       ({ allowed := true }, StatusAllowed)) ∧
    (mutate true dry gc2 gp2 req clusterName =
       ({ allowed := false,
          message := some ("failed to get project ID for \x27" ++ projectName ++
            "\x27: " ++ e2) }, StatusDenied)) ∧
    (mutate false dry gc2 gp2 req clusterName =
       ({ allowed := true }, StatusAllowed)) := by
  refine ⟨?_, ?_, ?_, ?_⟩ <;>
    simp [mutate, hkind, hobj, hlabel, hskip, hc1, hc2, hp2]

theorem c2_strict_permissive_witness :
    (mutate true false (fun _ => .error "cluster not found")
        (fun _ _ => .ok "p-xyz789")
        ⟨"Namespace", .create, some ⟨"demo", [("project", "platform")], none⟩, none⟩
        "prod" =
      ({ allowed := false,
         message := some "failed to get cluster ID: cluster not found" },
       StatusDenied)) ∧
    (mutate false false (fun _ => .error "cluster not found")
        (fun _ _ => .ok "p-xyz789")
        ⟨"Namespace", .create, some ⟨"demo", [("project", "platform")], none⟩, none⟩
        "prod" =
      ({ allowed := true }, StatusAllowed)) ∧
    (mutate true false (fun _ => .ok "c-m-abc123")
        (fun _ _ => .error "project not found")
        ⟨"Namespace", .create, some ⟨"demo", [("project", "platform")], none⟩, none⟩
        "prod" =
      ({ allowed := false,
         message := some
           "failed to get project ID for \x27platform\x27: project not found" },
       StatusDenied)) ∧
    (mutate false false (fun _ => .ok "c-m-abc123")
        (fun _ _ => .error "project not found")
        ⟨"Namespace", .create, some ⟨"demo", [("project", "platform")], none⟩, none⟩
        "prod" =
      ({ allowed := true }, StatusAllowed)) := by
  have h := c2_strict_permissive false
    (fun _ => .error "cluster not found") (fun _ => .ok "c-m-abc123")
    (fun _ _ => .ok "p-xyz789") (fun _ _ => .error "project not found")
    ⟨"Namespace", .create, some ⟨"demo", [("project", "platform")], none⟩, none⟩
    "prod" ⟨"demo", [("project", "platform")], none⟩
    "platform" "c-m-abc123" "cluster not found" "project not found"
    rfl rfl (by decide) (by decide) rfl rfl rfl
  exact ⟨h.1, h.2.1, h.2.2.1, h.2.2.2⟩

/-- Claim C3: for UPDATE requests whose new object parses and carries
the project label, a parsing old object with an unchanged label value
together with a non-empty target value on the new object short-circuits
to an allowed, patch-free decision (status `skipped`) for every
resolver; and an old object that fails to parse makes the run behave
exactly like the same request processed as a CREATE, i.e. it falls
through to cluster resolution instead of failing. -/
theorem c3_update_short_circuit
    (strict dry : Bool) (req : AdmissionRequest) (clusterName : String)
    (ns oldNs : NamespaceObj) (projectName : String)
    (hkind : req.kind = "Namespace")
    (hobj : req.objectRaw = some ns)
    (hlabel : lookupStr ns.labels projectLabel = some projectName)
    (hop : req.operation = Operation.update)
    (hold : req.oldObjectRaw = some (some oldNs))
    (holdlab : (lookupStr oldNs.labels projectLabel).getD "" = projectName)
    (hann : annotGet ns projectAnnotationKey ≠ "") :
    (∀ gc gp, mutate strict dry gc gp req clusterName =
       ({ allowed := true }, StatusSkipped)) ∧
    (∀ (req2 : AdmissionRequest) gc gp, req2.oldObjectRaw = some none →
       mutate strict dry gc gp req2 clusterName =
         mutate strict dry gc gp
           { req2 with operation := Operation.create } clusterName) := by
  constructor
  · intro gc gp
    have hsc : updateShortCircuit req ns projectName = true := by
      simp [updateShortCircuit, hop, hold, holdlab, hann]
    simp [mutate, hkind, hobj, hlabel, hsc]
  · intro req2 gc gp hold2
    have hsc : ∀ ns2 p2, updateShortCircuit req2 ns2 p2 = false ∧
        updateShortCircuit { req2 with operation := Operation.create } ns2 p2 =
          false := by
      intro ns2 p2
      constructor <;> simp [updateShortCircuit, hold2]
    cases req2 with
    | mk kind op objectRaw oldObjectRaw =>
      simp only [mutate]
      cases objectRaw with
      | none => rfl
      | some ns2 =>
        cases hL : lookupStr ns2.labels projectLabel with
        | none => simp [hL]
        | some p2 =>
          have h1 := (hsc ns2 p2).1
          have h2 := (hsc ns2 p2).2
          simp [hL, h1, h2]

theorem c3_update_short_circuit_witness :
    (mutate true false (fun _ => .error "down") (fun _ _ => .error "down")
        ⟨"Namespace", .update,
         some ⟨"demo", [("project", "platform")],
               some [("field.cattle.io/projectId", "c-m-abc123:p-xyz789")]⟩,
         some (some ⟨"demo", [("project", "platform")], none⟩)⟩ "prod" =
      ({ allowed := true }, StatusSkipped)) ∧
    (mutate true false (fun _ => .error "down") (fun _ _ => .error "down")
        ⟨"Namespace", .update,
         some ⟨"demo", [("project", "platform")], none⟩, some none⟩ "prod" =
      mutate true false (fun _ => .error "down") (fun _ _ => .error "down")
        ⟨"Namespace", Operation.create,
         some ⟨"demo", [("project", "platform")], none⟩, some none⟩ "prod") := by
  have h := c3_update_short_circuit true false
    ⟨"Namespace", .update,
     some ⟨"demo", [("project", "platform")],
           some [("field.cattle.io/projectId", "c-m-abc123:p-xyz789")]⟩,
     some (some ⟨"demo", [("project", "platform")], none⟩)⟩ "prod"
    ⟨"demo", [("project", "platform")],
     some [("field.cattle.io/projectId", "c-m-abc123:p-xyz789")]⟩
    ⟨"demo", [("project", "platform")], none⟩ "platform"
    rfl rfl (by decide) rfl rfl (by decide) (by decide)
  exact ⟨h.1 _ _,
    h.2 ⟨"Namespace", .update,
      some ⟨"demo", [("project", "platform")], none⟩, some none⟩ _ _ rfl⟩

/-- Claim C4: whenever both resolutions succeed and the object's
current value at the target key already equals
`clusterIdentifier ++ ":" ++ projectIdentifier`, the engine returns an
allowed decision with no patch (status `skipped`), for CREATE and
UPDATE alike: an already-correct object is a fixed point. -/
theorem c4_idempotent_fixed_point
    (strict dry : Bool)
    (gc : String → Except String String)
    (gp : String → String → Except String String)
    (req : AdmissionRequest) (clusterName : String)
    (ns : NamespaceObj) (projectName clusterID projectID : String)
    (m : List (String × String))
    (hkind : req.kind = "Namespace")
    (hobj : req.objectRaw = some ns)
    (hlabel : lookupStr ns.labels projectLabel = some projectName)
    (hc : gc clusterName = .ok clusterID)
    (hp : gp clusterID projectName = .ok projectID)
    (hannm : ns.annotations = some m)
    (hval : lookupStr m projectAnnotationKey =
      some (clusterID ++ ":" ++ projectID)) :
    mutate strict dry gc gp req clusterName =
      ({ allowed := true }, StatusSkipped) := by
  have hget : annotGet ns projectAnnotationKey = clusterID ++ ":" ++ projectID := by
    simp [annotGet, hannm, hval]
  by_cases hsc : updateShortCircuit req ns projectName = true
  · simp [mutate, hkind, hobj, hlabel, hsc]
  · simp [mutate, hkind, hobj, hlabel, hsc, hc, hp, hget, hannm]

theorem c4_idempotent_fixed_point_witness :
    mutate false false (fun _ => .ok "c-m-abc123") (fun _ _ => .ok "p-xyz789")
      ⟨"Namespace", .create,
       some ⟨"demo", [("project", "platform")],
             some [("field.cattle.io/projectId", "c-m-abc123:p-xyz789")]⟩,
       none⟩ "prod" =
      ({ allowed := true }, StatusSkipped) :=
  c4_idempotent_fixed_point false false
    (fun _ => .ok "c-m-abc123") (fun _ _ => .ok "p-xyz789")
    ⟨"Namespace", .create,
     some ⟨"demo", [("project", "platform")],
           some [("field.cattle.io/projectId", "c-m-abc123:p-xyz789")]⟩,
     none⟩ "prod"
    ⟨"demo", [("project", "platform")],
     some [("field.cattle.io/projectId", "c-m-abc123:p-xyz789")]⟩
    "platform" "c-m-abc123" "p-xyz789"
    [("field.cattle.io/projectId", "c-m-abc123:p-xyz789")]
    rfl rfl (by decide) rfl rfl rfl (by decide)

namespace Rancher

theorem retryAux_first_ok {α : Type} (call : Nat → Except K8sErr α)
    (left attempt : Nat) (b : Int) (w : List Int) (a : α)
    (h : call attempt = .ok a) :
    retryAux call left attempt b w = ⟨.ok a, attempt + 1, w.reverse⟩ := by
  cases left <;> simp [retryAux, h]

theorem retryAux_first_terminal {α : Type} (call : Nat → Except K8sErr α)
    (left attempt : Nat) (b : Int) (w : List Int) (e : K8sErr)
    (h : call attempt = .error e) (hr : isRetryableError e = false) :
    retryAux call left attempt b w = ⟨.error e, attempt + 1, w.reverse⟩ := by
  cases left <;> simp [retryAux, h, hr]

theorem retryAux_retryable_step {α : Type} (call : Nat → Except K8sErr α)
    (l attempt : Nat) (b : Int) (w : List Int) (e : K8sErr)
    (h : call attempt = .error e) (hr : isRetryableError e = true) :
    retryAux call (l + 1) attempt b w =
      retryAux call l (attempt + 1) (min (b * 2) maxBackoff) (b :: w) := by
  simp [retryAux, h, hr]

theorem retryAux_allError {α : Type} (call : Nat → Except K8sErr α)
    (e : K8sErr) (h : ∀ n, call n = .error e) (hr : isRetryableError e = true) :
    ∀ (left attempt : Nat) (b : Int) (w : List Int),
      retryAux call left attempt b w =
        ⟨.error e, attempt + left + 1, w.reverse ++ backoffWaits left b⟩ := by
  intro left
  induction left with
  | zero => intro attempt b w; simp [retryAux, h, backoffWaits]
  | succ l ih =>
    intro attempt b w
    rw [retryAux_retryable_step call l attempt b w e (h attempt) hr, ih]
    simp [backoffWaits]
    omega

theorem retryAux_attempts_lb {α : Type} (call : Nat → Except K8sErr α) :
    ∀ (left attempt : Nat) (b : Int) (w : List Int),
      attempt + 1 ≤ (retryAux call left attempt b w).attempts := by
  intro left
  induction left with
  | zero =>
    intro attempt b w
    cases h : call attempt <;> simp [retryAux, h]
  | succ l ih =>
    intro attempt b w
    cases h : call attempt with
    | ok a => simp [retryAux, h]
    | error e =>
      by_cases hr : isRetryableError e = true
      · rw [retryAux_retryable_step call l attempt b w e h hr]
        have := ih (attempt + 1) (min (b * 2) maxBackoff) (b :: w)
        omega
      · rw [retryAux_first_terminal call (l + 1) attempt b w e h
          (by simpa using hr)]

theorem cacheFind_cacheInsert_self (c : Cache) (k : String) (e : CacheEntry) :
    cacheFind (cacheInsert c k e) k = some e := by
  induction c with
  | nil => simp [cacheInsert, cacheFind]
  | cons kv rest ih =>
    by_cases hk : kv.1 = k
    · cases kv with
      | mk k1 e1 => simp_all [cacheInsert, cacheFind]
    · cases kv with
      | mk k1 e1 =>
        simp only at hk
        simp [cacheInsert, cacheFind, hk, ih]

theorem cacheFind_cacheInsert_ne (c : Cache) (k : String) (e : CacheEntry)
    (k2 : String) (h : k2 ≠ k) :
    cacheFind (cacheInsert c k e) k2 = cacheFind c k2 := by
  induction c with
  | nil => simp [cacheInsert, cacheFind, Ne.symm h]
  | cons kv rest ih =>
    cases kv with
    | mk k1 e1 =>
      by_cases hk : k1 = k
      · subst hk
        simp [cacheInsert, cacheFind, Ne.symm h]
      · simp [cacheInsert, cacheFind, hk, ih]

theorem cacheLookup_cacheInsert_self (c : Cache) (k v : String)
    (exp t : Int) :
    cacheLookup (cacheInsert c k ⟨v, exp⟩) k t =
      if t < exp then some v else none := by
  simp [cacheLookup, cacheFind_cacheInsert_self]

theorem cacheFind_evictExpired (c : Cache) (now : Int) (k : String)
    (e : CacheEntry) (hf : cacheFind c k = some e)
    (hv : ¬ e.expiresAt < now) :
    cacheFind (evictExpired c now) k = some e := by
  induction c with
  | nil => simp [cacheFind] at hf
  | cons kv rest ih =>
    cases kv with
    | mk k1 e1 =>
      by_cases hk : k1 = k
      · subst hk
        have he : e1 = e := by
          have hf2 : (if k1 = k1 then some e1 else cacheFind rest k1) = some e := hf
          simpa using hf2
        subst he
        simp [evictExpired, List.filter_cons, hv, cacheFind]
      · have hf2 : cacheFind rest k = some e := by
          have hf3 : (if k1 = k then some e1 else cacheFind rest k) = some e := hf
          simpa [hk] using hf3
        by_cases hkeep : e1.expiresAt < now
        · simpa [evictExpired, List.filter_cons, hkeep] using ih hf2
        · have := ih hf2
          simpa [evictExpired, List.filter_cons, hkeep, cacheFind, hk] using this

theorem backoffChain_backoffWaits :
    ∀ (l : Nat) (b : Int), backoffChain (backoffWaits l b) := by
  intro l
  induction l with
  | zero => intro b; simp [backoffWaits, backoffChain]
  | succ l ih =>
    intro b
    cases l with
    | zero => simp [backoffWaits, backoffChain]
    | succ m =>
      have hrest := ih (min (b * 2) maxBackoff)
      simp only [backoffWaits] at hrest ⊢
      exact ⟨rfl, hrest⟩

theorem getClusterID_attempts_miss (ttl now : Int)
    (remote : Nat → Except K8sErr ClusterObj) (c : Cache) (name : String)
    (hmiss : cacheLookup c name now = none) :
    (getClusterID ttl now remote c name).attempts =
      (retryAux remote maxRetries 0 initialBackoff []).attempts := by
  simp only [getClusterID, hmiss]
  cases h : (retryAux remote maxRetries 0 initialBackoff []).result with
  | error e => simp [h]
  | ok obj => cases hs : obj.statusClusterName <;> simp [h, hs]

theorem getClusterID_waits_miss (ttl now : Int)
    (remote : Nat → Except K8sErr ClusterObj) (c : Cache) (name : String)
    (hmiss : cacheLookup c name now = none) :
    (getClusterID ttl now remote c name).waits =
      (retryAux remote maxRetries 0 initialBackoff []).waits := by
  simp only [getClusterID, hmiss]
  cases h : (retryAux remote maxRetries 0 initialBackoff []).result with
  | error e => simp [h]
  | ok obj => cases hs : obj.statusClusterName <;> simp [h, hs]

/-- Claim C5: a read of a key right after a write of value `v` with TTL
`ttl` is a hit returning `v`, with no remote attempt, at any time
strictly less than `ttl` after the write, and is treated as a miss (the
remote is consulted again) at any later time; cache entries survive
eviction unchanged while valid, eviction only deletes, and insertion
leaves every other key untouched. -/
theorem c5_cache_ttl :
    (∀ (c : Cache) (k v : String) (t0 ttl t1 : Int),
       cacheLookup (cacheInsert c k ⟨v, t0 + ttl⟩) k t1 =
         if t1 < t0 + ttl then some v else none) ∧
    (∀ (ttl now : Int) (remote : Nat → Except K8sErr ClusterObj)
       (c : Cache) (name v : String),
       cacheLookup c name now = some v →
       getClusterID ttl now remote c name = ⟨.ok v, c, 0, []⟩) ∧
    (∀ (ttl t0 t1 : Int) (remote remote2 : Nat → Except K8sErr ClusterObj)
       (c : Cache) (name cid : String) (obj : ClusterObj),
       cacheLookup c name t0 = none →
       remote 0 = .ok obj →
       obj.statusClusterName = .found cid →
       (getClusterID ttl t0 remote c name).result = .ok cid ∧
       (t1 < t0 + ttl →
         getClusterID ttl t1 remote2
             (getClusterID ttl t0 remote c name).cache name =
           ⟨.ok cid, (getClusterID ttl t0 remote c name).cache, 0, []⟩) ∧
       (t0 + ttl ≤ t1 →
         1 ≤ (getClusterID ttl t1 remote2
               (getClusterID ttl t0 remote c name).cache name).attempts)) ∧
    (∀ (c : Cache) (now : Int) (k : String) (e : CacheEntry),
       cacheFind c k = some e → ¬ e.expiresAt < now →
       cacheFind (evictExpired c now) k = some e) ∧
    (∀ (c : Cache) (now : Int), evictExpired c now ⊆ c) ∧
    (∀ (c : Cache) (k : String) (e : CacheEntry) (k2 : String), k2 ≠ k →
       cacheFind (cacheInsert c k e) k2 = cacheFind c k2) := by
  refine ⟨?_, ?_, ?_, cacheFind_evictExpired, ?_, ?_⟩
  · intro c k v t0 ttl t1
    exact cacheLookup_cacheInsert_self c k v (t0 + ttl) t1
  · intro ttl now remote c name v h
    simp [getClusterID, h]
  · intro ttl t0 t1 remote remote2 c name cid obj hmiss hrem hfound
    have hrun : getClusterID ttl t0 remote c name =
        ⟨.ok cid, cacheInsert c name ⟨cid, t0 + ttl⟩, 1, []⟩ := by
      simp only [getClusterID, hmiss,
        retryAux_first_ok remote maxRetries 0 initialBackoff [] obj hrem]
      simp [hfound]
    refine ⟨by rw [hrun], ?_, ?_⟩
    · intro hlt
      rw [hrun]
      have hl : cacheLookup (cacheInsert c name ⟨cid, t0 + ttl⟩) name t1 =
          some cid := by
        rw [cacheLookup_cacheInsert_self, if_pos hlt]
      simp [getClusterID, hl]
    · intro hge
      rw [hrun]
      have hl : cacheLookup (cacheInsert c name ⟨cid, t0 + ttl⟩) name t1 =
          none := by
        rw [cacheLookup_cacheInsert_self, if_neg (by omega)]
      rw [getClusterID_attempts_miss ttl t1 remote2 _ name hl]
      exact retryAux_attempts_lb remote2 maxRetries 0 initialBackoff []
  · intro c now
    exact List.filter_subset' c
  · intro c k e k2 h
    exact cacheFind_cacheInsert_ne c k e k2 h

theorem c5_cache_ttl_witness :
    (cacheLookup (cacheInsert [] "prod" ⟨"c-m-abc123", (0 : Int) + 300⟩)
        "prod" 299 =
      if (299 : Int) < 0 + 300 then some "c-m-abc123" else none) ∧
    (getClusterID 300 5 (fun _ => .error K8sErr.timeout)
        [("prod", ⟨"c-m-abc123", 10⟩)] "prod" =
      ⟨.ok "c-m-abc123", [("prod", ⟨"c-m-abc123", 10⟩)], 0, []⟩) ∧
    ((getClusterID 300 0 (fun _ => .ok ⟨.found "c-m-abc123"⟩) [] "prod").result =
      .ok "c-m-abc123") ∧
    (getClusterID 300 299 (fun _ => .ok ⟨.found "other"⟩)
        (getClusterID 300 0 (fun _ => .ok ⟨.found "c-m-abc123"⟩) [] "prod").cache
        "prod" =
      ⟨.ok "c-m-abc123",
       (getClusterID 300 0 (fun _ => .ok ⟨.found "c-m-abc123"⟩) [] "prod").cache,
       0, []⟩) ∧
    (1 ≤ (getClusterID 300 300 (fun _ => .ok ⟨.found "other"⟩)
        (getClusterID 300 0 (fun _ => .ok ⟨.found "c-m-abc123"⟩) [] "prod").cache
        "prod").attempts) ∧
    (cacheFind (evictExpired [("prod", ⟨"v", 10⟩)] 5) "prod" = some ⟨"v", 10⟩) ∧
    (evictExpired [("prod", ⟨"v", 10⟩)] 5 ⊆ [("prod", ⟨"v", 10⟩)]) ∧
    (cacheFind (cacheInsert [("a", ⟨"v", 10⟩)] "b" ⟨"w", 20⟩) "a" =
      cacheFind [("a", ⟨"v", 10⟩)] "a") := by
  obtain ⟨h1, h2, h3, h4, h5, h6⟩ := c5_cache_ttl
  have ghit := h3 300 0 299 (fun _ => .ok ⟨.found "c-m-abc123"⟩)
    (fun _ => .ok ⟨.found "other"⟩) [] "prod" "c-m-abc123"
    ⟨.found "c-m-abc123"⟩ rfl rfl rfl
  have gmiss := h3 300 0 300 (fun _ => .ok ⟨.found "c-m-abc123"⟩)
    (fun _ => .ok ⟨.found "other"⟩) [] "prod" "c-m-abc123"
    ⟨.found "c-m-abc123"⟩ rfl rfl rfl
  exact ⟨h1 [] "prod" "c-m-abc123" 0 300 299,
    h2 300 5 (fun _ => .error K8sErr.timeout)
      [("prod", ⟨"c-m-abc123", 10⟩)] "prod" "c-m-abc123" rfl,
    ghit.1, ghit.2.1 (by norm_num), gmiss.2.2 (by norm_num),
    h4 [("prod", ⟨"v", 10⟩)] 5 "prod" ⟨"v", 10⟩ rfl (by norm_num),
    h5 [("prod", ⟨"v", 10⟩)] 5,
    h6 [("a", ⟨"v", 10⟩)] "b" ⟨"w", 20⟩ "a" (by decide)⟩

/-- Claim C6: when every attempt fails with a retryable error, both
resolver calls issue exactly `maxRetries + 1` remote attempts and then
return an error; when the first attempt fails with a terminal error,
exactly one attempt is issued before the error is returned. -/
theorem c6_retry_counts
    (ttl now : Int) (cache : Cache)
    (clusterName clusterID projectName : String)
    (remoteC : Nat → Except K8sErr ClusterObj)
    (remoteP : Nat → Except K8sErr (List ProjectObj))
    (e : K8sErr)
    (hmissC : cacheLookup cache clusterName now = none)
    (hmissP : cacheLookup cache (clusterID ++ ":" ++ projectName) now = none) :
    ((∀ n, remoteC n = .error e) → isRetryableError e = true →
       (getClusterID ttl now remoteC cache clusterName).attempts =
         maxRetries + 1 ∧
       (getClusterID ttl now remoteC cache clusterName).result =
         .error (.apiError e)) ∧
    (remoteC 0 = .error e → isRetryableError e = false →
       (getClusterID ttl now remoteC cache clusterName).attempts = 1 ∧
       (getClusterID ttl now remoteC cache clusterName).result =
         .error (.apiError e)) ∧
    ((∀ n, remoteP n = .error e) → isRetryableError e = true →
       (getProjectID ttl now remoteP cache clusterID projectName).attempts =
         maxRetries + 1 ∧
       (getProjectID ttl now remoteP cache clusterID projectName).result =
         .error (.apiError e)) ∧
    (remoteP 0 = .error e → isRetryableError e = false →
       (getProjectID ttl now remoteP cache clusterID projectName).attempts = 1 ∧
       (getProjectID ttl now remoteP cache clusterID projectName).result =
         .error (.apiError e)) := by
  refine ⟨?_, ?_, ?_, ?_⟩
  · intro hall hr
    have h := retryAux_allError remoteC e hall hr maxRetries 0 initialBackoff []
    constructor <;> simp [getClusterID, hmissC, h]
  · intro h0 hr
    have h := retryAux_first_terminal remoteC maxRetries 0 initialBackoff [] e h0 hr
    constructor <;> simp [getClusterID, hmissC, h]
  · intro hall hr
    have h := retryAux_allError remoteP e hall hr maxRetries 0 initialBackoff []
    constructor <;> simp [getProjectID, hmissP, h]
  · intro h0 hr
    have h := retryAux_first_terminal remoteP maxRetries 0 initialBackoff [] e h0 hr
    constructor <;> simp [getProjectID, hmissP, h]

theorem c6_retry_counts_witness :
    ((getClusterID 300 0 (fun _ => .error K8sErr.timeout) [] "prod").attempts =
       maxRetries + 1 ∧
     (getClusterID 300 0 (fun _ => .error K8sErr.timeout) [] "prod").result =
       .error (.apiError K8sErr.timeout)) ∧
    ((getClusterID 300 0 (fun _ => .error K8sErr.notFound) [] "prod").attempts =
       1 ∧
     (getClusterID 300 0 (fun _ => .error K8sErr.notFound) [] "prod").result =
       .error (.apiError K8sErr.notFound)) ∧
    ((getProjectID 300 0 (fun _ => .error K8sErr.timeout) []
        "c-m-abc123" "platform").attempts = maxRetries + 1 ∧
     (getProjectID 300 0 (fun _ => .error K8sErr.timeout) []
        "c-m-abc123" "platform").result = .error (.apiError K8sErr.timeout)) ∧
    ((getProjectID 300 0 (fun _ => .error K8sErr.notFound) []
        "c-m-abc123" "platform").attempts = 1 ∧
     (getProjectID 300 0 (fun _ => .error K8sErr.notFound) []
        "c-m-abc123" "platform").result =
       .error (.apiError K8sErr.notFound)) := by
  have hret := c6_retry_counts 300 0 [] "prod" "c-m-abc123" "platform"
    (fun _ => .error K8sErr.timeout) (fun _ => .error K8sErr.timeout)
    K8sErr.timeout rfl rfl
  have hterm := c6_retry_counts 300 0 [] "prod" "c-m-abc123" "platform"
    (fun _ => .error K8sErr.notFound) (fun _ => .error K8sErr.notFound)
    K8sErr.notFound rfl rfl
  exact ⟨hret.1 (fun _ => rfl) rfl, hterm.2.1 rfl rfl,
    hret.2.2.1 (fun _ => rfl) rfl, hterm.2.2.2 rfl rfl⟩

/-- Claim C7: an error is retried iff it is classified transient
(server-timeout, timeout, too-many-requests, service-unavailable,
internal error); every other classification is surfaced after a single
attempt; and between consecutive retryable attempts the wait starts at
the initial delay and doubles, capped at the maximum delay. -/
theorem c7_retryable_classification
    (ttl now : Int) (cache : Cache) (clusterName : String)
    (remoteC : Nat → Except K8sErr ClusterObj) (e : K8sErr)
    (hmiss : cacheLookup cache clusterName now = none) :
    (∀ er : K8sErr, isRetryableError er = true ↔
       (er = .serverTimeout ∨ er = .timeout ∨ er = .tooManyRequests ∨
        er = .serviceUnavailable ∨ er = .internalError)) ∧
    (remoteC 0 = .error e →
       (2 ≤ (getClusterID ttl now remoteC cache clusterName).attempts ↔
         isRetryableError e = true)) ∧
    ((∀ n, remoteC n = .error e) → isRetryableError e = true →
       (getClusterID ttl now remoteC cache clusterName).waits =
         backoffWaits maxRetries initialBackoff) ∧
    backoffWaits maxRetries initialBackoff =
      [initialBackoff, min (initialBackoff * 2) maxBackoff,
       min (min (initialBackoff * 2) maxBackoff * 2) maxBackoff] ∧
    backoffWaits maxRetries initialBackoff = [100, 200, 400] ∧
    (∀ (l : Nat) (b : Int), backoffChain (backoffWaits l b)) ∧
    (∀ (l : Nat) (b : Int), (backoffWaits (l + 1) b).head? = some b) := by
  refine ⟨?_, ?_, ?_, by decide, by decide, backoffChain_backoffWaits, ?_⟩
  · intro er; cases er <;> simp [isRetryableError]
  · intro h0
    constructor
    · intro h2
      by_contra hnr
      have hf : isRetryableError e = false := by simpa using hnr
      rw [getClusterID_attempts_miss ttl now remoteC cache clusterName hmiss,
        retryAux_first_terminal remoteC maxRetries 0 initialBackoff [] e h0 hf]
        at h2
      simp at h2
    · intro hr
      rw [getClusterID_attempts_miss ttl now remoteC cache clusterName hmiss]
      have hm3 : maxRetries = 2 + 1 := rfl
      rw [hm3, retryAux_retryable_step remoteC 2 0 initialBackoff [] e h0 hr]
      exact retryAux_attempts_lb remoteC 2 1
        (min (initialBackoff * 2) maxBackoff) [initialBackoff]
  · intro hall hr
    rw [getClusterID_waits_miss ttl now remoteC cache clusterName hmiss,
      retryAux_allError remoteC e hall hr maxRetries 0 initialBackoff []]
    simp
  · intro l b; simp [backoffWaits]

theorem c7_retryable_classification_witness :
    (isRetryableError K8sErr.timeout = true ↔
       (K8sErr.timeout = .serverTimeout ∨ K8sErr.timeout = .timeout ∨
        K8sErr.timeout = .tooManyRequests ∨
        K8sErr.timeout = .serviceUnavailable ∨
        K8sErr.timeout = .internalError)) ∧
    (2 ≤ (getClusterID 300 0 (fun _ => .error K8sErr.timeout) [] "prod").attempts ↔
       isRetryableError K8sErr.timeout = true) ∧
    ((getClusterID 300 0 (fun _ => .error K8sErr.timeout) [] "prod").waits =
       backoffWaits maxRetries initialBackoff) ∧
    backoffWaits maxRetries initialBackoff = [100, 200, 400] ∧
    backoffChain (backoffWaits 3 100) ∧
    (backoffWaits (2 + 1) 100).head? = some 100 := by
  have h := c7_retryable_classification 300 0 [] "prod"
    (fun _ => .error K8sErr.timeout) K8sErr.timeout rfl
  exact ⟨h.1 K8sErr.timeout, h.2.1 rfl, h.2.2.1 (fun _ => rfl) rfl,
    h.2.2.2.2.1, h.2.2.2.2.2.1 3 100, h.2.2.2.2.2.2 2 100⟩

/-- Claim C8: project resolution returns the identifier of the first
item in list order whose display-name field extracts and equals the
requested name, skipping items whose field cannot be extracted, and
returns a not-found error when no item matches. -/
theorem c8_first_match
    (ttl now : Int) (cache : Cache) (clusterID projectName : String)
    (remote : Nat → Except K8sErr (List ProjectObj))
    (items : List ProjectObj)
    (hmiss : cacheLookup cache (clusterID ++ ":" ++ projectName) now = none)
    (hrem : remote 0 = .ok items) :
    (∀ (its : List ProjectObj) (d : String),
       findProject its d =
         (its.find? (fun p =>
            match p.specDisplayName with
            | .found x => decide (x = d)
            | _ => false)).map ProjectObj.name) ∧
    ((getProjectID ttl now remote cache clusterID projectName).result =
       match findProject items projectName with
       | some pid => .ok pid
       | none => .error (.projectNotFound projectName clusterID)) := by
  constructor
  · intro its d
    induction its with
    | nil => simp [findProject]
    | cons p rest ih =>
      cases hd : p.specDisplayName with
      | found x =>
        by_cases hx : x = d
        · simp [findProject, hd, hx, List.find?]
        · simp [findProject, hd, hx, List.find?, ih]
      | missing => simp [findProject, hd, List.find?, ih]
      | wrongType => simp [findProject, hd, List.find?, ih]
  · simp only [getProjectID, hmiss,
      retryAux_first_ok remote maxRetries 0 initialBackoff [] items hrem]
    cases hf : findProject items projectName <;> simp [hf]

theorem c8_first_match_witness :
    (findProject
        [⟨"p-aaa", .found "platform"⟩, ⟨"p-bbb", .found "platform"⟩,
         ⟨"p-ccc", .missing⟩] "platform" =
      (([⟨"p-aaa", .found "platform"⟩, ⟨"p-bbb", .found "platform"⟩,
         ⟨"p-ccc", .missing⟩] : List ProjectObj).find? (fun p =>
          match p.specDisplayName with
          | .found x => decide (x = "platform")
          | _ => false)).map ProjectObj.name) ∧
    ((getProjectID 300 0
        (fun _ => .ok [⟨"p-aaa", .found "platform"⟩,
          ⟨"p-bbb", .found "platform"⟩, ⟨"p-ccc", .missing⟩])
        [] "c-m-abc123" "platform").result =
      match findProject
          [⟨"p-aaa", .found "platform"⟩, ⟨"p-bbb", .found "platform"⟩,
           ⟨"p-ccc", .missing⟩] "platform" with
      | some pid => .ok pid
      | none => .error (.projectNotFound "platform" "c-m-abc123")) := by
  have h := c8_first_match 300 0 [] "c-m-abc123" "platform"
    (fun _ => .ok [⟨"p-aaa", .found "platform"⟩,
      ⟨"p-bbb", .found "platform"⟩, ⟨"p-ccc", .missing⟩])
    [⟨"p-aaa", .found "platform"⟩, ⟨"p-bbb", .found "platform"⟩,
     ⟨"p-ccc", .missing⟩] rfl rfl
  exact ⟨h.1 _ "platform", h.2⟩

/-- Claim C10: a failed resolution never writes the cache — whenever
`getClusterID` or `getProjectID` returns an error, the cache it
operates on is returned unchanged. -/
theorem c10_no_cache_write_on_error
    (ttl now : Int) (cache : Cache)
    (clusterName clusterID projectName : String)
    (remoteC : Nat → Except K8sErr ClusterObj)
    (remoteP : Nat → Except K8sErr (List ProjectObj)) :
    (∀ er : RErr,
       (getClusterID ttl now remoteC cache clusterName).result = .error er →
       (getClusterID ttl now remoteC cache clusterName).cache = cache) ∧
    (∀ er : RErr,
       (getProjectID ttl now remoteP cache clusterID projectName).result =
         .error er →
       (getProjectID ttl now remoteP cache clusterID projectName).cache =
         cache) := by
  constructor
  · intro er
    simp only [getClusterID]
    cases hl : cacheLookup cache clusterName now with
    | some v => intro h; simp at h
    | none =>
      cases hr : (retryAux remoteC maxRetries 0 initialBackoff []).result with
      | error e2 => intro _; rfl
      | ok obj =>
        cases hs : obj.statusClusterName with
        | found cid => intro h; simp [hs] at h
        | missing => intro _; simp [hs]
        | wrongType => intro _; simp [hs]
  · intro er
    simp only [getProjectID]
    cases hl : cacheLookup cache (clusterID ++ ":" ++ projectName) now with
    | some v => intro h; simp at h
    | none =>
      cases hr : (retryAux remoteP maxRetries 0 initialBackoff []).result with
      | error e2 => intro _; rfl
      | ok items =>
        cases hf : findProject items projectName with
        | some pid => intro h; simp [hf] at h
        | none => intro _; simp [hf]

theorem c10_no_cache_write_on_error_witness :
    ((getClusterID 300 0 (fun _ => .error K8sErr.notFound)
        [("a", ⟨"v", 10⟩)] "prod").cache = [("a", ⟨"v", 10⟩)]) ∧
    ((getProjectID 300 0 (fun _ => .ok [])
        [("a", ⟨"v", 10⟩)] "c-m-abc123" "platform").cache =
      [("a", ⟨"v", 10⟩)]) := by
  have h := c10_no_cache_write_on_error 300 0 [("a", ⟨"v", 10⟩)]
    "prod" "c-m-abc123" "platform"
    (fun _ => .error K8sErr.notFound) (fun _ => .ok [])
  exact ⟨h.1 (.apiError K8sErr.notFound) rfl,
    h.2 (.projectNotFound "platform" "c-m-abc123") rfl⟩

end Rancher

end Fencemaster
